/-
Verification of the esports scouting backend's statistics pipeline:
window fallback resolution, stats aggregation, confidence scoring,
trend alerts, comparison advantages and report confidence.

Shallow embedding conventions:
* Go `time.Time` values are modelled as integers (days); `AddDate`
  month/year offsets are abstracted to fixed day counts (7/30/91/182/365)
  preserving the strict widening order of the windows.
* Go `float64` arithmetic on win rates and K/D ratios is modelled as exact
  rational arithmetic (`ℚ`); the `%.0f` format verb is modelled as rounding
  to the nearest integer.  Where a division by zero can actually occur
  (trend analysis), IEEE special values are modelled explicitly by `FloatQ`.
* External collaborators (the series-history fetch and the per-series
  detail fetch) are parameters: the detail fetch is a function from a
  series id to either an error or the list of per-team stats records
  (the Go `map` values in iteration order).
-/
import Mathlib

namespace Scouting

/-! ### String helpers (Go `strings.Contains` / `strings.ToLower`) -/

/-- Boolean prefix test on character lists. -/
def isPref : List Char → List Char → Bool
  | [], _ => true
  | _ :: _, [] => false
  | a :: as, b :: bs => a == b && isPref as bs

/-- Boolean substring test on character lists; `containsSub hay needle`
mirrors Go `strings.Contains(hay, needle)`. -/
def containsSub (hay needle : List Char) : Bool :=
  match hay with
  | [] => needle.isEmpty
  | _ :: t => isPref needle hay || containsSub t needle

/-- Go `strings.Contains` on strings. -/
def strContains (hay needle : String) : Bool :=
  containsSub hay.data needle.data

/-- Go `strings.ToLower`, character by character (ASCII names). -/
def toLowerStr (s : String) : String :=
  ⟨s.data.map Char.toLower⟩

/-- The team-name match used by the aggregator:
`strings.Contains(strings.ToLower(stats.TeamName), strings.ToLower(teamName))`. -/
def teamMatch (teamName statsName : String) : Bool :=
  strContains (toLowerStr statsName) (toLowerStr teamName)

/-! ### Time windows and the graduated fallback resolver
(`getWindowFallbackSequence`, `calculateCutoffDate` and the fallback loop
of `GetTeamStatistics` in the grid client). -/

/-- `models.TimeWindow`. -/
inductive TimeWindow where
  | lastWeek
  | lastMonth
  | last3Months
  | last6Months
  | lastYear
deriving DecidableEq, Repr

/-- Width order of windows (wider window = larger rank); used to state the
"fallback only widens" invariant. -/
def windowRank : TimeWindow → ℕ
  | .lastWeek => 0
  | .lastMonth => 1
  | .last3Months => 2
  | .last6Months => 3
  | .lastYear => 4

/-- `getWindowFallbackSequence` from the grid client. -/
def windowFallbackSequence : TimeWindow → List TimeWindow
  | .lastWeek => [.lastWeek, .lastMonth, .last3Months]
  | .lastMonth => [.lastMonth, .last3Months, .last6Months]
  | .last3Months => [.last3Months, .last6Months, .lastYear]
  | .last6Months => [.last6Months, .lastYear]
  | .lastYear => [.lastYear]

/-- `calculateCutoffDate`: time modelled as integer days, Go `AddDate`
calendar offsets abstracted to fixed day counts (order-preserving). -/
def calculateCutoffDate (now : ℤ) : TimeWindow → ℤ
  | .lastWeek => now - 7
  | .lastMonth => now - 30
  | .last3Months => now - 91
  | .last6Months => now - 182
  | .lastYear => now - 365

/-- `grid.SeriesData`. -/
structure SeriesData where
  id : String
  teamID : String
  date : ℤ
  won : Bool
  opponent : String
deriving DecidableEq, Repr

/-- One pass of the fallback loop body: series strictly after the cutoff
(`series.Date.After(cutoffDate)`). -/
def filterByWindow (now : ℤ) (w : TimeWindow) (history : List SeriesData) :
    List SeriesData :=
  history.filter (fun s => decide (calculateCutoffDate now w < s.date))

/-- The graduated-fallback loop of `GetTeamStatistics`: try each candidate
window in order, stop (with that window as the actual window) at the first
candidate with at least 3 matches; if the sequence is exhausted, keep the
last candidate's filtered list while the actual window stays the requested
window `req`. -/
def resolveLoop (now : ℤ) (history : List SeriesData) (req : TimeWindow) :
    List TimeWindow → List SeriesData × TimeWindow
  | [] => ([], req)
  | w :: ws =>
    let f := filterByWindow now w history
    if 3 ≤ f.length then (f, w)
    else
      match ws with
      | [] => (f, req)
      | w' :: ws' => resolveLoop now history req (w' :: ws')

/-- The window fallback resolver of `GetTeamStatistics` (steps 2): returns
the filtered series list and the actual window recorded for the stats. -/
def resolveWindow (now : ℤ) (history : List SeriesData) (req : TimeWindow) :
    List SeriesData × TimeWindow :=
  resolveLoop now history req (windowFallbackSequence req)

/-- Reference resolver following the amended specification wording: the
first chain candidate with at least 3 date-filtered matches wins and
becomes the actual window; if none qualifies, the widest (last) candidate's
filtered list is kept while the actual window stays the requested one. -/
def resolveSpec (now : ℤ) (history : List SeriesData) (req : TimeWindow) :
    List SeriesData × TimeWindow :=
  let chain := windowFallbackSequence req
  match chain.find? (fun w => decide (3 ≤ (filterByWindow now w history).length)) with
  | some w => (filterByWindow now w history, w)
  | none => (filterByWindow now (chain.getLastD req) history, req)

/-! ### Stats aggregation (`GetTeamStatistics`, post history fetch)
The series-history and per-series detail fetches are external network
calls; the history is a parameter and the detail fetch is a function
parameter `fetch` returning either an error or the per-team stats records
of the series (the values of the Go map in iteration order). -/

/-- `models.SeriesStats` (the fields the aggregator reads). -/
structure SeriesStats where
  seriesID : String
  teamID : String
  teamName : String
  gamesPlayed : ℕ
  won : Bool
  kills : ℕ
  deaths : ℕ
deriving DecidableEq, Repr

/-- `models.Streak`. -/
structure Streak where
  type : String
  count : ℕ
deriving DecidableEq, Repr

/-- `models.TeamStats` (the fields `GetTeamStatistics` populates; `kd`
stands for the Go field `KDRatio`). -/
structure TeamStats where
  winRate : ℚ
  matchesPlayed : ℕ
  kills : ℕ
  killsAvg : ℚ
  deaths : ℕ
  deathsAvg : ℚ
  kd : ℚ
  currentStreak : Streak
  sampleSize : ℕ
  actualTimeWindow : TimeWindow
deriving DecidableEq, Repr

/-- Error values returned by the aggregation path.  `teamNotFound` models
`TeamNotFoundError`, `insufficientData` models `InsufficientDataError`
(with the optional last-match date), and `generic` models an untyped
`fmt.Errorf` error carrying only its message. -/
inductive StatsError where
  | teamNotFound (team : String) (available : List String)
  | insufficientData (team : String) (reason : String) (lastMatch : Option ℤ)
  | generic (msg : String)
deriving DecidableEq, Repr

/-- One iteration of the detail loop for one series: fetch its stats; on
a fetch error the series is skipped; otherwise the first map entry whose
team name contains the searched name (case-insensitively) contributes its
kills, deaths and games played, mirroring the inner loop with `break`. -/
def seriesContribution (fetch : String → Except String (List SeriesStats))
    (teamName : String) (s : SeriesData) : Option (ℕ × ℕ × ℕ) :=
  match fetch s.id with
  | .error _ => none
  | .ok statsList =>
    match statsList.find? (fun st => teamMatch teamName st.teamName) with
    | none => none
    | some st => some (st.kills, st.deaths, st.gamesPlayed)

/-- Running totals of the detail loop (`totalKills`, `totalDeaths`,
`totalGames`, `successfulDownloads`). -/
structure DetailTotals where
  totalKills : ℕ
  totalDeaths : ℕ
  totalGames : ℕ
  successfulDownloads : ℕ
deriving DecidableEq, Repr

/-- Totals of the detail loop over a list of series (the caller passes the
first 10 filtered series, as the Go loop stops at index 10). -/
def detailTotals (fetch : String → Except String (List SeriesStats))
    (teamName : String) : List SeriesData → DetailTotals
  | [] => ⟨0, 0, 0, 0⟩
  | s :: rest =>
    let acc := detailTotals fetch teamName rest
    match seriesContribution fetch teamName s with
    | none => acc
    | some (k, d, g) =>
      ⟨acc.totalKills + k, acc.totalDeaths + d, acc.totalGames + g,
        acc.successfulDownloads + 1⟩

/-- The streak walk: count consecutive series from the most recent whose
outcome matches the most recent outcome, stopping at the first mismatch. -/
def countStreak (wonType : Bool) (l : List SeriesData) : ℕ :=
  (l.takeWhile (fun s => s.won == wonType)).length

/-- The streak of a filtered series list (most recent first): type is the
outcome of the most recent series (`"loss"` when empty), count the length
of the run of that outcome. -/
def currentStreakOf : List SeriesData → Streak
  | [] => ⟨"loss", 0⟩
  | s0 :: rest =>
    let t := if s0.won then "win" else "loss"
    ⟨t, countStreak s0.won (s0 :: rest)⟩

/-- `GetTeamStatistics` after the series-history fetch: graduated window
fallback, detail-loop aggregation over the first 10 filtered series,
win rate over all filtered series, K/D figures over the detail totals
(failing when no download succeeded or games/deaths total zero), and the
streak walk.  The second (unreachable) `InsufficientDataError` return for
`successfulDownloads == 0` is dead code in the source and has no branch
here. -/
def getTeamStatistics (now : ℤ)
    (fetch : String → Except String (List SeriesStats))
    (teamName : String) (seriesHistory : List SeriesData)
    (timeWindow : TimeWindow) : Except StatsError TeamStats :=
  if seriesHistory.isEmpty then
    .error (.generic ("no match data found for team " ++ teamName))
  else
    let r := resolveWindow now seriesHistory timeWindow
    let filteredSeries := r.1
    let actualWindow := r.2
    if filteredSeries.isEmpty then
      .error (.insufficientData teamName "no recent matches found"
        ((seriesHistory.head?).map SeriesData.date))
    else
      let t := detailTotals fetch teamName (filteredSeries.take 10)
      if t.successfulDownloads = 0 then
        .error (.generic ("no detailed stats available for team " ++ teamName ++
          " - series may not be finished or data unavailable"))
      else
        let totalWins := (filteredSeries.filter (fun s => s.won)).length
        let totalMatches := filteredSeries.length
        let winRate : ℚ := (totalWins : ℚ) / (totalMatches : ℚ)
        if 0 < t.totalGames ∧ 0 < t.totalDeaths then
          .ok
            { winRate := winRate
              matchesPlayed := totalMatches
              kills := t.totalKills
              killsAvg := (t.totalKills : ℚ) / (t.totalGames : ℚ)
              deaths := t.totalDeaths
              deathsAvg := (t.totalDeaths : ℚ) / (t.totalGames : ℚ)
              kd := (t.totalKills : ℚ) / (t.totalDeaths : ℚ)
              currentStreak := currentStreakOf filteredSeries
              sampleSize := totalMatches
              actualTimeWindow := actualWindow }
        else
          .error (.generic ("insufficient detailed statistics available for team "
            ++ teamName))

/-! ### Trend analysis (`TrendsService.generateAlerts`,
`determineSeverity`).  The Go code divides by the baseline win rate and
baseline K/D without a zero guard; with `float64` semantics a division by
zero yields an infinity (or NaN for 0/0) instead of failing, so the model
uses an explicit IEEE-style value type for the relative changes. -/

/-- A `float64` value restricted to what the trend computations produce:
an exact finite rational, a signed infinity, or NaN. -/
inductive FloatQ where
  | finite (q : ℚ)
  | posInf
  | negInf
  | nan
deriving DecidableEq, Repr

/-- IEEE-style division of two finite values: division by zero gives a
signed infinity (NaN for 0/0); otherwise the exact rational quotient. -/
def fdivQ (a b : ℚ) : FloatQ :=
  if b = 0 then
    if a = 0 then .nan else if 0 < a then .posInf else .negInf
  else .finite (a / b)

/-- Multiplication by 100 (the `* 100` turning a change into a percent). -/
def mul100 : FloatQ → FloatQ
  | .finite q => .finite (100 * q)
  | .posInf => .posInf
  | .negInf => .negInf
  | .nan => .nan

/-- `math.Abs`. -/
def fabs : FloatQ → FloatQ
  | .finite q => .finite |q|
  | .posInf => .posInf
  | .negInf => .posInf
  | .nan => .nan

/-- The comparison `c <= x` on a float value (false for NaN). -/
def fge (x : FloatQ) (c : ℚ) : Bool :=
  match x with
  | .finite q => decide (c ≤ q)
  | .posInf => true
  | .negInf => false
  | .nan => false

/-- The comparison `x < 0` on a float value (false for NaN). -/
def fltZero : FloatQ → Bool
  | .finite q => decide (q < 0)
  | .posInf => false
  | .negInf => true
  | .nan => false

/-- The `%.0f` format verb on a nonnegative change percentage: nearest
integer for finite values, `+Inf`/`NaN` for the special values. -/
def fmtF : FloatQ → String
  | .finite q => toString (round q)
  | .posInf => "+Inf"
  | .negInf => "-Inf"
  | .nan => "NaN"

/-- `models.AlertSeverity`. -/
inductive AlertSeverity where
  | high
  | medium
  | low
deriving DecidableEq, Repr

/-- `models.AlertType`. -/
inductive AlertType where
  | positiveShift
  | negativeShift
  | playstyleChange
  | consistency
deriving DecidableEq, Repr

/-- `models.TrendAlert`. -/
structure TrendAlert where
  type : AlertType
  severity : AlertSeverity
  message : String
  context : String
deriving DecidableEq, Repr

/-- `models.PeriodStats` (`kd` stands for the Go field `KDRatio` and
`matchCount` for the Go field `Matches`, which is unusable as a Lean field
name). -/
structure PeriodStats where
  timeWindow : TimeWindow
  winRate : ℚ
  kd : ℚ
  matchCount : ℕ
deriving DecidableEq, Repr

/-- `TrendsService.determineSeverity` applied to an absolute change
percentage. -/
def determineSeverity (changePct : FloatQ) : AlertSeverity :=
  if fge changePct 25 then .high
  else if fge changePct 15 then .medium
  else .low

/-- `TrendsService.generateAlerts`: the small-sample rule, the win-rate
shift rule (15% threshold), the K/D playstyle rule (10% threshold) and the
consistency fallback, in emission order. -/
def generateAlerts (overall recent : PeriodStats) : List TrendAlert :=
  if recent.matchCount < 2 then
    [⟨.consistency, .low, "Insufficient recent data for trend analysis",
      "Only " ++ toString recent.matchCount ++ " recent match(es) available"⟩]
  else
    let winRateChangePct := mul100 (fdivQ (recent.winRate - overall.winRate) overall.winRate)
    let wrAlerts : List TrendAlert :=
      if fge (fabs winRateChangePct) 15 then
        let severity := determineSeverity (fabs winRateChangePct)
        let down := fltZero winRateChangePct
        [⟨if down then .negativeShift else .positiveShift, severity,
          "Win rate " ++ (if down then "decreased" else "increased") ++ " by "
            ++ fmtF (fabs winRateChangePct) ++ "% in recent matches",
          if down then "Team is underperforming in recent matches"
          else "Team is performing significantly better recently"⟩]
      else []
    let kdChangePct := mul100 (fdivQ (recent.kd - overall.kd) overall.kd)
    let kdAlerts : List TrendAlert :=
      if fge (fabs kdChangePct) 10 then
        let severity := determineSeverity (fabs kdChangePct)
        let down := fltZero kdChangePct
        [⟨.playstyleChange, severity,
          "K/D ratio " ++ (if down then "declined" else "improved") ++ " by "
            ++ fmtF (fabs kdChangePct) ++ "%",
          if down then "Less efficient or more deaths recently"
          else "More aggressive or efficient plays"⟩]
      else []
    let alerts := wrAlerts ++ kdAlerts
    if alerts.length = 0 ∧ 3 ≤ recent.matchCount then
      alerts ++ [⟨.consistency, .low, "Performance remains consistent",
        "No significant changes detected in recent matches"⟩]
    else alerts

/-! ### Confidence scoring (`CalculateConfidence`, `formatTimeWindow`)
and warnings (`GenerateWarnings`). -/

/-- `models.ConfidenceLevel`. -/
inductive ConfidenceLevel where
  | high
  | medium
  | low
deriving DecidableEq, Repr

/-- Numeric order of confidence levels (LOW < MEDIUM < HIGH). -/
def levelRank : ConfidenceLevel → ℕ
  | .low => 0
  | .medium => 1
  | .high => 2

/-- `models.Confidence`. -/
structure Confidence where
  level : ConfidenceLevel
  sampleSize : ℕ
  reasoning : String
  reliabilityScore : ℕ
deriving DecidableEq, Repr

/-- `formatTimeWindow` from the confidence scorer. -/
def formatTimeWindow : TimeWindow → String
  | .lastWeek => "over the last week"
  | .lastMonth => "over the last month"
  | .last3Months => "over the last 3 months"
  | .last6Months => "over the last 6 months"
  | .lastYear => "over the last year"

/-- `CalculateConfidence`: the established/limited threshold table plus the
reasoning string. -/
def calculateConfidence (sampleSize totalTeamMatches : ℕ)
    (timeWindow : TimeWindow) : Confidence :=
  let lr : ConfidenceLevel × ℕ :=
    if 18 ≤ totalTeamMatches then
      if 18 ≤ sampleSize then (.high, 95)
      else if 7 ≤ sampleSize then (.medium, 70)
      else (.low, 40)
    else
      if 15 ≤ sampleSize then (.high, 90)
      else if 5 ≤ sampleSize then (.medium, 60)
      else (.low, 30)
  let timeWindowStr := formatTimeWindow timeWindow
  let base :=
    if sampleSize = totalTeamMatches then
      "Based on all " ++ toString sampleSize ++ " matches available " ++ timeWindowStr
    else
      "Based on " ++ toString sampleSize ++ " of " ++ toString totalTeamMatches
        ++ " total matches " ++ timeWindowStr
  let reasoning :=
    match lr.1 with
    | .high => base ++ " - highly reliable predictions"
    | .medium => base ++ " - moderately reliable predictions"
    | .low => base ++ " - limited data, predictions less reliable"
  ⟨lr.1, sampleSize, reasoning, lr.2⟩

/-- The level/score table as written in the specification (established
versus limited pivot at 18 total matches). -/
def confTable (sampleSize totalTeamMatches : ℕ) : ConfidenceLevel × ℕ :=
  if 18 ≤ totalTeamMatches then
    if 18 ≤ sampleSize then (.high, 95)
    else if 7 ≤ sampleSize then (.medium, 70)
    else (.low, 40)
  else
    if 15 ≤ sampleSize then (.high, 90)
    else if 5 ≤ sampleSize then (.medium, 60)
    else (.low, 30)

/-- The sample-size-disparity warning message of `GenerateWarnings`. -/
def disparityMsg : String :=
  "Teams have significantly different match counts - consider with caution"

/-- `GenerateWarnings`: low-confidence warnings, very-small-sample
warnings, the mismatched-quality warning, and the sample-size-disparity
warning whose ratio test is `ratio > 3.0 || ratio < 0.33`. -/
def generateWarnings (team1Name : String) (team1Confidence : Confidence)
    (team2Name : String) (team2Confidence : Confidence) : List String :=
  (if team1Confidence.level = .low then
    [team1Name ++ " has low sample size (" ++ toString team1Confidence.sampleSize
      ++ " matches) - predictions less reliable"] else [])
  ++ (if team2Confidence.level = .low then
    [team2Name ++ " has low sample size (" ++ toString team2Confidence.sampleSize
      ++ " matches) - predictions less reliable"] else [])
  ++ (if team1Confidence.sampleSize < 3 then
    [team1Name ++ " has insufficient data (<3 matches) - comparison may not be meaningful"]
    else [])
  ++ (if team2Confidence.sampleSize < 3 then
    [team2Name ++ " has insufficient data (<3 matches) - comparison may not be meaningful"]
    else [])
  ++ (if (team1Confidence.level = .high ∧ team2Confidence.level = .low)
        ∨ (team2Confidence.level = .high ∧ team1Confidence.level = .low) then
    ["Teams have significantly different data quality - comparison may be skewed"]
    else [])
  ++ (if 0 < team1Confidence.sampleSize ∧ 0 < team2Confidence.sampleSize then
    let r : ℚ := (team1Confidence.sampleSize : ℚ) / (team2Confidence.sampleSize : ℚ)
    if 3 < r ∨ r < 33 / 100 then [disparityMsg] else []
    else [])

/-! ### Comparison advantages (`ComparisonService.calculateAdvantages`)
and report confidence (`ReportService.calculateOverallConfidence`). -/

/-- `models.StatVal`. -/
structure StatVal where
  avg : ℚ
  total : ℕ
deriving DecidableEq, Repr

/-- `models.ComparisonStats` (`kd` stands for the Go field `KDRatio`). -/
structure ComparisonStats where
  winRate : ℚ
  kd : ℚ
  kills : StatVal
  deaths : StatVal
  currentStreak : Streak
  confidence : Confidence
deriving DecidableEq, Repr

/-- `models.ComparisonTeamData`. -/
structure ComparisonTeamData where
  name : String
  stats : ComparisonStats
deriving DecidableEq, Repr

/-- `models.Advantages`. -/
structure Advantages where
  team1 : List String
  team2 : List String
deriving DecidableEq, Repr

/-- `models.DataQuality`. -/
structure DataQuality where
  team1Matches : ℕ
  team2Matches : ℕ
  timeRange : TimeWindow
deriving DecidableEq, Repr

/-- `models.ComparisonReport` (without the optional recent-trends block,
which `calculateAdvantages` and `calculateOverallConfidence` never read). -/
structure ComparisonReport where
  team1 : ComparisonTeamData
  team2 : ComparisonTeamData
  advantages : Advantages
  dataQuality : DataQuality
  warnings : List String
deriving DecidableEq, Repr

/-- The `%.1f` format verb on a nonnegative difference: one decimal digit,
via rounding of ten times the value. -/
def fmt1 (q : ℚ) : String :=
  let n := round (q * 10)
  toString (n / 10) ++ "." ++ toString (n % 10)

/-- `ComparisonService.calculateAdvantages`: the win-rate rule (dead zone
at plus/minus 0.05), the K/D rule (dead zone at plus/minus 0.1) and the
strictly-stronger win-streak rule, appended in that order per team. -/
def calculateAdvantages (report : ComparisonReport) : Advantages :=
  let wrDiff := report.team1.stats.winRate - report.team2.stats.winRate
  let wrPair : List String × List String :=
    if 1 / 20 ≤ wrDiff then
      (["Higher win rate (+" ++ toString (round (wrDiff * 100)) ++ "%)"], [])
    else if wrDiff ≤ -(1 / 20) then
      ([], ["Higher win rate (+" ++ toString (round (-wrDiff * 100)) ++ "%)"])
    else ([], [])
  let kdDiff := report.team1.stats.kd - report.team2.stats.kd
  let kdPair : List String × List String :=
    if 1 / 10 ≤ kdDiff then
      (["Better K/D (+" ++ fmt1 kdDiff ++ ")"], [])
    else if kdDiff ≤ -(1 / 10) then
      ([], ["Better K/D (+" ++ fmt1 (-kdDiff) ++ ")"])
    else ([], [])
  let s1 := report.team1.stats.currentStreak
  let s2 := report.team2.stats.currentStreak
  let stPair : List String × List String :=
    if s1.type = "win" ∧ (s2.type ≠ "win" ∨ s2.count < s1.count) then
      (["Stronger win streak"], [])
    else if s2.type = "win" ∧ (s1.type ≠ "win" ∨ s1.count < s2.count) then
      ([], ["Stronger win streak"])
    else ([], [])
  ⟨wrPair.1 ++ kdPair.1 ++ stPair.1, wrPair.2 ++ kdPair.2 ++ stPair.2⟩

/-- A win-rate advantage is an advantage entry beginning with the fixed
text `Higher win rate`. -/
def hasWrAdv (l : List String) : Bool :=
  l.any (fun m => isPref "Higher win rate".data m.data)

/-- Level minimum under the order LOW < MEDIUM < HIGH. -/
def minLevel (a b : ConfidenceLevel) : ConfidenceLevel :=
  if levelRank a ≤ levelRank b then a else b

/-- `ReportService.calculateOverallConfidence`: the lower of the two
comparison-confidence levels via the two special cases of the Go code, the
halved total match count, and the reliability score `(s1 + s2) / 2` in
integer division. -/
def calculateOverallConfidence (comp : ComparisonReport) : Confidence :=
  let team1Conf := comp.team1.stats.confidence
  let team2Conf := comp.team2.stats.confidence
  let lowestLevel :=
    if team2Conf.level = .low then ConfidenceLevel.low
    else if team2Conf.level = .medium ∧ team1Conf.level = .high then ConfidenceLevel.medium
    else team1Conf.level
  let totalMatches := comp.dataQuality.team1Matches + comp.dataQuality.team2Matches
  let avgMatches := totalMatches / 2
  ⟨lowestLevel, avgMatches,
    "Based on " ++ toString totalMatches ++ " matches analyzed across both teams",
    (team1Conf.reliabilityScore + team2Conf.reliabilityScore) / 2⟩

/-! ### Helper lemmas -/

/-- A list is always a prefix of itself extended on the right. -/
theorem isPref_append_self (p r : List Char) : isPref p (p ++ r) = true := by
  induction p with
  | nil => rfl
  | cons a as ih => simp [isPref, ih]

/-- A prefix test fails as soon as the heads differ. -/
theorem isPref_head_ne (a b : Char) (h : (a == b) = false) (as bs : List Char) :
    isPref (a :: as) (b :: bs) = false := by
  simp [isPref, h]

/-- Appending strings concatenates their character data. -/
theorem strData_append (s t : String) : (s ++ t).data = s.data ++ t.data := by
  cases s; cases t; rfl

/-- Suffix test on strings, via reversed character lists. -/
def isSuf (tail s : String) : Bool :=
  isPref tail.data.reverse s.data.reverse

/-- A string obtained by appending `tail` cannot equal a string that does
not end in `tail`. -/
theorem append_ne_of_not_suffix (x tail target : String)
    (h : isSuf tail target = false) : x ++ tail ≠ target := by
  intro he
  have hd : target.data = x.data ++ tail.data := by
    rw [← he, strData_append]
  have : isSuf tail target = true := by
    unfold isSuf
    rw [hd, List.reverse_append]
    exact isPref_append_self _ _
  simp [this] at h

/-- The detail loop can count at most one successful download per series. -/
theorem detailTotals_succ_le (fetch : String → Except String (List SeriesStats))
    (teamName : String) (l : List SeriesData) :
    (detailTotals fetch teamName l).successfulDownloads ≤ l.length := by
  induction l with
  | nil => simp [detailTotals]
  | cons s rest ih =>
    simp only [detailTotals, List.length_cons]
    cases seriesContribution fetch teamName s with
    | none => exact Nat.le_succ_of_le ih
    | some v => simpa using Nat.succ_le_succ ih

/-- The fallback loop agrees with a first-match search over the candidate
chain: the first candidate with at least 3 filtered matches wins; if none
qualifies, the last candidate's filtered list is kept with the requested
window. -/
theorem resolveLoop_eq_find (now : ℤ) (history : List SeriesData) (req : TimeWindow) :
    ∀ ws : List TimeWindow, ws ≠ [] →
      resolveLoop now history req ws =
        match ws.find? (fun w => decide (3 ≤ (filterByWindow now w history).length)) with
        | some w => (filterByWindow now w history, w)
        | none => (filterByWindow now (ws.getLastD req) history, req) := by
  intro ws
  induction ws with
  | nil => intro h; exact absurd rfl h
  | cons w ws ih =>
    intro _
    cases ws with
    | nil =>
      by_cases h : 3 ≤ (filterByWindow now w history).length <;>
        simp [resolveLoop, List.find?, h, List.getLastD]
    | cons w' ws' =>
      by_cases h : 3 ≤ (filterByWindow now w history).length
      · simp [resolveLoop, List.find?, h]
      · have hih := ih (by simp)
        simp only [resolveLoop, if_neg h, hih, List.find?, decide_eq_true_eq,
          List.getLastD_cons]
        rw [decide_eq_false h]

/-- Every fallback chain is non-empty. -/
theorem chain_ne_nil (req : TimeWindow) : windowFallbackSequence req ≠ [] := by
  cases req <;> simp [windowFallbackSequence]

/-- Every fallback chain starts with its requested window. -/
theorem mem_chain_self (req : TimeWindow) : req ∈ windowFallbackSequence req := by
  cases req <;> simp [windowFallbackSequence]

/-- Every member of a fallback chain is at least as wide as the requested
window. -/
theorem rank_le_of_mem_chain (req w : TimeWindow) (h : w ∈ windowFallbackSequence req) :
    windowRank req ≤ windowRank w := by
  cases req <;> cases w <;> simp_all [windowFallbackSequence, windowRank]

/-- Resolving over an empty history filters to the empty list. -/
theorem resolveWindow_nil (now : ℤ) (w : TimeWindow) :
    (resolveWindow now ([] : List SeriesData) w).1 = [] := by
  cases w <;> rfl

/-! ### Concrete scenarios used by the claim theorems -/

/-- A one-series history whose single match lies inside the three-month
candidate but not in the week or month candidates. -/
def c1Hist : List SeriesData := [⟨"s1", "t1", 950, true, "opp"⟩]

/-- A three-series history entirely inside the last-week window, most
recent first: two wins then a loss. -/
def c2Hist : List SeriesData :=
  [⟨"s1", "t1", 999, true, "o"⟩, ⟨"s2", "t1", 998, true, "o"⟩,
    ⟨"s3", "t1", 997, false, "o"⟩]

/-- A detail fetch that always succeeds with a single matching team record
(2 games, 30 kills, 20 deaths per series). -/
def okFetch : String → Except String (List SeriesStats) :=
  fun _ => .ok [⟨"sid", "t1", "Team Alpha", 2, true, 30, 20⟩]

/-- A detail fetch that always succeeds but reports zero deaths. -/
def zeroDeathFetch : String → Except String (List SeriesStats) :=
  fun _ => .ok [⟨"sid", "t1", "Team Alpha", 2, true, 30, 0⟩]

/-- A detail fetch that always fails (series state API error). -/
def failFetch : String → Except String (List SeriesStats) :=
  fun _ => .error "series state API error"

/-- The stats `getTeamStatistics` produces on `c2Hist` with `okFetch`. -/
def c2Stats : TeamStats :=
  ⟨2 / 3, 3, 90, 15, 60, 10, 3 / 2, ⟨"win", 2⟩, 3, .lastWeek⟩

/-- The spec scenario report: team A at win rate 0.65, team B at 0.55,
equal K/D and equal streaks. -/
def scenarioReport : ComparisonReport :=
  ⟨⟨"A", ⟨13 / 20, 1, ⟨0, 0⟩, ⟨0, 0⟩, ⟨"win", 2⟩, ⟨.high, 20, "", 95⟩⟩⟩,
    ⟨"B", ⟨11 / 20, 1, ⟨0, 0⟩, ⟨0, 0⟩, ⟨"win", 2⟩, ⟨.high, 20, "", 95⟩⟩⟩,
    ⟨[], []⟩, ⟨20, 20, .last3Months⟩, []⟩

/-- A comparison report whose teams carry reliability scores 95 and 70
(an odd sum), as produced by the established-history confidence table. -/
def c8Report : ComparisonReport :=
  ⟨⟨"A", ⟨13 / 20, 1, ⟨0, 0⟩, ⟨0, 0⟩, ⟨"win", 2⟩, ⟨.high, 20, "", 95⟩⟩⟩,
    ⟨"B", ⟨11 / 20, 1, ⟨0, 0⟩, ⟨0, 0⟩, ⟨"win", 2⟩, ⟨.medium, 10, "", 70⟩⟩⟩,
    ⟨[], []⟩, ⟨20, 10, .last3Months⟩, []⟩

/-! ### Claim theorems -/

/-- C1 (counterexample): with a single match only inside the widest
candidate, no candidate of the LAST_WEEK chain reaches 3 matches; the
resolver then keeps the widest candidate's filtered result, but the actual
window it reports is the requested LAST_WEEK, not the widest candidate
LAST_3_MONTHS as the claim states. -/
theorem resolveWindow_keeps_requested_on_fallback_exhaustion :
    (filterByWindow 1000 .lastWeek c1Hist).length < 3 ∧
    (filterByWindow 1000 .lastMonth c1Hist).length < 3 ∧
    (filterByWindow 1000 .last3Months c1Hist).length < 3 ∧
    (windowFallbackSequence .lastWeek).getLastD .lastWeek = .last3Months ∧
    (resolveWindow 1000 c1Hist .lastWeek).1 = filterByWindow 1000 .last3Months c1Hist ∧
    (resolveWindow 1000 c1Hist .lastWeek).2 = TimeWindow.lastWeek ∧
    TimeWindow.lastWeek ≠ TimeWindow.last3Months := by
  decide

unseal Rat.mul Rat.inv Rat.add Rat.sub in
/-- C4 (code evaluation): the win-rate change is computed without any
guard on a zero baseline win rate; at baseline win rate 0 and recent win
rate 1/2 the division by zero is performed (yielding an IEEE infinity) and
a POSITIVE_SHIFT/HIGH alert with an `+Inf` message is emitted. -/
theorem generateAlerts_divides_by_zero_baseline :
    fdivQ ((1 : ℚ) / 2 - 0) 0 = FloatQ.posInf ∧
    generateAlerts ⟨.last3Months, 0, 1, 5⟩ ⟨.lastWeek, 1 / 2, 1, 3⟩
      = [⟨.positiveShift, .high,
          "Win rate increased by +Inf% in recent matches",
          "Team is performing significantly better recently"⟩] := by
  constructor
  · decide
  · decide

/-- C5 (code evaluation): with a non-empty filtered series list and a
detail fetch that always fails, `GetTeamStatistics` returns the untyped
generic error (its message only), not a typed DetailUnavailable or
InsufficientData value: the typed return just below it in the source is
dead code. -/
theorem getTeamStatistics_generic_error_on_no_details :
    getTeamStatistics 1000 failFetch "alpha" c1Hist .lastWeek
      = .error (.generic
          "no detailed stats available for team alpha - series may not be finished or data unavailable") := by
  rfl

unseal Rat.mul Rat.inv Rat.add Rat.sub in
/-- C8 (counterexample): with reliability scores 95 and 70 the overall
reliability score is the Go integer division result 82, which differs from
the arithmetic mean 82.5. -/
theorem overallConfidence_score_not_mean :
    ((calculateOverallConfidence c8Report).reliabilityScore : ℚ)
      ≠ (((c8Report.team1.stats.confidence.reliabilityScore : ℚ))
          + ((c8Report.team2.stats.confidence.reliabilityScore : ℚ))) / 2 := by
  decide

unseal Rat.mul Rat.inv Rat.add Rat.sub in
/-- C9 (counterexample): a 33-to-100 sample ratio is below one third, yet
the code's disparity test `ratio > 3.0 || ratio < 0.33` does not fire, and
no warning at all is generated for these two high-confidence teams. -/
theorem generateWarnings_no_disparity_at_33_to_100 :
    ((33 : ℚ) / 100 < 1 / 3) ∧
    generateWarnings "A" ⟨.high, 33, "", 90⟩ "B" ⟨.high, 100, "", 95⟩ = [] := by
  constructor
  · norm_num
  · decide

/-- C1 (amended): the resolver equals the first-match reference resolver:
it stops at the first chain candidate with at least 3 matches and records
it as the actual window; when no candidate qualifies it keeps the widest
candidate's filtered result while the actual window stays the requested
window.  In every case the actual window is a member of the requested
window's fallback chain and is never narrower than the requested window. -/
theorem resolveWindow_amended_fallback_contract (now : ℤ) (history : List SeriesData)
    (req : TimeWindow) :
    resolveWindow now history req = resolveSpec now history req ∧
    (resolveWindow now history req).2 ∈ windowFallbackSequence req ∧
    windowRank req ≤ windowRank (resolveWindow now history req).2 := by
  have heq : resolveWindow now history req = resolveSpec now history req := by
    unfold resolveWindow resolveSpec
    exact resolveLoop_eq_find now history req _ (chain_ne_nil req)
  refine ⟨heq, ?_, ?_⟩ <;> rw [heq] <;> unfold resolveSpec <;>
    rcases hf : List.find? (fun w => decide (3 ≤ (filterByWindow now w history).length))
        (windowFallbackSequence req) with _ | w <;>
      simp only [hf]
  · exact mem_chain_self req
  · exact List.mem_of_find?_eq_some hf
  · exact le_refl _
  · exact rank_le_of_mem_chain req w (List.mem_of_find?_eq_some hf)

/-- C2: on every successful aggregation the win rate is the win count over
ALL filtered series divided by the full filtered count, while the kill and
death averages and the K/D ratio are computed solely from the detail
totals of the first 10 filtered series whose fetch succeeded and matched
the team, and the number of detail-successful series never exceeds the
win-rate denominator. -/
theorem getTeamStatistics_dual_denominators (now : ℤ)
    (fetch : String → Except String (List SeriesStats))
    (teamName : String) (history : List SeriesData) (w : TimeWindow)
    (stats : TeamStats)
    (h : getTeamStatistics now fetch teamName history w = .ok stats) :
    stats.winRate = (((resolveWindow now history w).1.filter (fun s => s.won)).length : ℚ)
        / ((resolveWindow now history w).1.length : ℚ) ∧
    stats.killsAvg = ((detailTotals fetch teamName ((resolveWindow now history w).1.take 10)).totalKills : ℚ)
        / ((detailTotals fetch teamName ((resolveWindow now history w).1.take 10)).totalGames : ℚ) ∧
    stats.deathsAvg = ((detailTotals fetch teamName ((resolveWindow now history w).1.take 10)).totalDeaths : ℚ)
        / ((detailTotals fetch teamName ((resolveWindow now history w).1.take 10)).totalGames : ℚ) ∧
    stats.kd = ((detailTotals fetch teamName ((resolveWindow now history w).1.take 10)).totalKills : ℚ)
        / ((detailTotals fetch teamName ((resolveWindow now history w).1.take 10)).totalDeaths : ℚ) ∧
    (detailTotals fetch teamName ((resolveWindow now history w).1.take 10)).successfulDownloads
        ≤ (resolveWindow now history w).1.length := by
  simp only [getTeamStatistics] at h
  split at h
  · exact absurd h (by simp)
  · split at h
    · exact absurd h (by simp)
    · split at h
      · exact absurd h (by simp)
      · split at h
        · injection h with h'
          subst h'
          refine ⟨rfl, rfl, rfl, rfl, ?_⟩
          refine le_trans (detailTotals_succ_le fetch teamName _) ?_
          rw [List.length_take]
          exact min_le_right _ _
        · exact absurd h (by simp)

unseal Rat.mul Rat.inv Rat.add Rat.sub in
/-- C2 (witness): the dual-denominator contract evaluated on a concrete
three-series history where every detail fetch succeeds. -/
theorem getTeamStatistics_dual_denominators_witness :
    c2Stats.winRate = (((resolveWindow 1000 c2Hist .lastWeek).1.filter (fun s => s.won)).length : ℚ)
        / ((resolveWindow 1000 c2Hist .lastWeek).1.length : ℚ) ∧
    c2Stats.killsAvg = ((detailTotals okFetch "alpha" ((resolveWindow 1000 c2Hist .lastWeek).1.take 10)).totalKills : ℚ)
        / ((detailTotals okFetch "alpha" ((resolveWindow 1000 c2Hist .lastWeek).1.take 10)).totalGames : ℚ) ∧
    c2Stats.deathsAvg = ((detailTotals okFetch "alpha" ((resolveWindow 1000 c2Hist .lastWeek).1.take 10)).totalDeaths : ℚ)
        / ((detailTotals okFetch "alpha" ((resolveWindow 1000 c2Hist .lastWeek).1.take 10)).totalGames : ℚ) ∧
    c2Stats.kd = ((detailTotals okFetch "alpha" ((resolveWindow 1000 c2Hist .lastWeek).1.take 10)).totalKills : ℚ)
        / ((detailTotals okFetch "alpha" ((resolveWindow 1000 c2Hist .lastWeek).1.take 10)).totalDeaths : ℚ) ∧
    (detailTotals okFetch "alpha" ((resolveWindow 1000 c2Hist .lastWeek).1.take 10)).successfulDownloads
        ≤ (resolveWindow 1000 c2Hist .lastWeek).1.length :=
  getTeamStatistics_dual_denominators 1000 okFetch "alpha" c2Hist .lastWeek c2Stats (by rfl)

/-- C6: the confidence scorer realises exactly the established/limited
threshold table of the specification, and its level is monotone in the
sample size when the total match count is held fixed. -/
theorem calculateConfidence_table_and_monotone (s s' t : ℕ) (w : TimeWindow)
    (h : s ≤ s') :
    ((calculateConfidence s t w).level, (calculateConfidence s t w).reliabilityScore)
        = confTable s t ∧
    levelRank (calculateConfidence s t w).level
      ≤ levelRank (calculateConfidence s' t w).level := by
  constructor
  · simp only [calculateConfidence, confTable]
  · simp only [calculateConfidence]
    split_ifs <;> simp_all [levelRank] <;> try omega

/-- C6 (witness): the table and monotonicity at sample sizes 5 and 16 with
10 total matches. -/
theorem calculateConfidence_table_and_monotone_witness :
    ((calculateConfidence 5 10 .lastWeek).level,
        (calculateConfidence 5 10 .lastWeek).reliabilityScore) = confTable 5 10 ∧
    levelRank (calculateConfidence 5 10 .lastWeek).level
      ≤ levelRank (calculateConfidence 16 10 .lastWeek).level :=
  calculateConfidence_table_and_monotone 5 16 10 .lastWeek (by omega)

/-- C8 (amended): the overall confidence level is the minimum of the two
teams' levels under LOW < MEDIUM < HIGH, and the overall reliability score
is the integer (floor) division `(s1 + s2) / 2` — the arithmetic mean
rounded down, not the exact mean. -/
theorem overallConfidence_min_level_and_floor_mean (comp : ComparisonReport) :
    (calculateOverallConfidence comp).level
        = minLevel comp.team1.stats.confidence.level comp.team2.stats.confidence.level ∧
    (calculateOverallConfidence comp).reliabilityScore
        = (comp.team1.stats.confidence.reliabilityScore
            + comp.team2.stats.confidence.reliabilityScore) / 2 := by
  constructor
  · cases h1 : comp.team1.stats.confidence.level <;>
      cases h2 : comp.team2.stats.confidence.level <;>
        simp [calculateOverallConfidence, minLevel, levelRank, h1, h2]
  · rfl

/-- C10: whenever the detail totals over the detail-successful subset have
a zero game count or a zero death total, team-statistics computation
returns the generic insufficient-detailed-statistics error and no
`TeamStats`, even though the filtered list is non-empty and at least one
detail fetch succeeded. -/
theorem getTeamStatistics_error_on_zero_games_or_deaths (now : ℤ)
    (fetch : String → Except String (List SeriesStats))
    (teamName : String) (history : List SeriesData) (w : TimeWindow)
    (hne : (resolveWindow now history w).1 ≠ [])
    (hsucc : 0 < (detailTotals fetch teamName
        ((resolveWindow now history w).1.take 10)).successfulDownloads)
    (hzero : (detailTotals fetch teamName
          ((resolveWindow now history w).1.take 10)).totalGames = 0
        ∨ (detailTotals fetch teamName
          ((resolveWindow now history w).1.take 10)).totalDeaths = 0) :
    getTeamStatistics now fetch teamName history w
      = .error (.generic ("insufficient detailed statistics available for team "
          ++ teamName)) := by
  simp only [getTeamStatistics]
  split
  · rename_i hempty
    exfalso
    apply hne
    rw [List.isEmpty_iff.mp hempty]
    exact resolveWindow_nil now w
  · split
    · rename_i hfempty
      exact absurd (List.isEmpty_iff.mp hfempty) hne
    · split
      · rename_i hs0
        omega
      · split
        · rename_i hcond
          obtain ⟨hg, hd⟩ := hcond
          rcases hzero with h0 | h0 <;> omega
        · rfl

/-- C10 (witness): a three-series history whose details all succeed with
zero deaths yields the error despite one-plus successful downloads. -/
theorem getTeamStatistics_error_on_zero_games_or_deaths_witness :
    getTeamStatistics 1000 zeroDeathFetch "alpha" c2Hist .lastWeek
      = .error (.generic ("insufficient detailed statistics available for team "
          ++ "alpha")) :=
  getTeamStatistics_error_on_zero_games_or_deaths 1000 zeroDeathFetch "alpha" c2Hist
    .lastWeek (by decide) (by decide) (by decide)

unseal Rat.mul Rat.inv Rat.add Rat.sub in
/-- C3 (counterexample): at a 12% K/D increase (baseline 1, recent 1.12,
3 recent matches, unchanged win rate) the emitted PLAYSTYLE_CHANGE alert
has severity LOW, not MEDIUM: `determineSeverity` returns LOW below 15%,
so the K/D rule does not share the win-rate rule's severity buckets on
[10%, 15%). -/
theorem playstyle_alert_low_severity_at_12pct :
    generateAlerts ⟨.last3Months, 1 / 2, 1, 10⟩ ⟨.lastWeek, 1 / 2, 28 / 25, 3⟩
      = [⟨.playstyleChange, .low, "K/D ratio improved by 12%",
          "More aggressive or efficient plays"⟩] ∧
    AlertSeverity.low ≠ AlertSeverity.medium := by
  constructor
  · decide
  · decide

/-- The playstyle-change alerts of a trend run with at least 2 recent
matches are exactly the K/D rule's output: one alert when the absolute
K/D change percentage passes the 10 threshold, none otherwise. -/
theorem filter_playstyle_eq (overall recent : PeriodStats)
    (h2 : ¬ recent.matchCount < 2) :
    (generateAlerts overall recent).filter (fun a => a.type == AlertType.playstyleChange)
      = if fge (fabs (mul100 (fdivQ (recent.kd - overall.kd) overall.kd))) 10 then
          [⟨.playstyleChange,
            determineSeverity (fabs (mul100 (fdivQ (recent.kd - overall.kd) overall.kd))),
            "K/D ratio "
              ++ (if fltZero (mul100 (fdivQ (recent.kd - overall.kd) overall.kd)) then
                    "declined" else "improved")
              ++ " by " ++ fmtF (fabs (mul100 (fdivQ (recent.kd - overall.kd) overall.kd)))
              ++ "%",
            if fltZero (mul100 (fdivQ (recent.kd - overall.kd) overall.kd)) then
              "Less efficient or more deaths recently"
            else "More aggressive or efficient plays"⟩]
        else [] := by
  simp only [generateAlerts, if_neg h2]
  by_cases hw : fge (fabs (mul100 (fdivQ (recent.winRate - overall.winRate) overall.winRate))) 15 = true
  · by_cases hk : fge (fabs (mul100 (fdivQ (recent.kd - overall.kd) overall.kd))) 10 = true
    · cases hd : fltZero (mul100 (fdivQ (recent.winRate - overall.winRate) overall.winRate)) <;>
        simp [hw, hk, hd, List.filter]
    · cases hd : fltZero (mul100 (fdivQ (recent.winRate - overall.winRate) overall.winRate)) <;>
        simp [hw, hk, hd, List.filter]
  · by_cases hk : fge (fabs (mul100 (fdivQ (recent.kd - overall.kd) overall.kd))) 10 = true
    · simp [hw, hk, List.filter]
    · by_cases hm : 3 ≤ recent.matchCount <;> simp [hw, hk, hm, List.filter]

/-- C3 (amended): with at least 2 recent matches and a nonzero baseline
K/D, a PLAYSTYLE_CHANGE alert is emitted exactly when the absolute
relative K/D change is at least 10%, and its severity is HIGH at 25% or
more, MEDIUM on [15%, 25%), and LOW on [10%, 15%) — the LOW band below
15% is what the claim's two-bucket description misses. -/
theorem playstyle_alert_threshold_and_severity (overall recent : PeriodStats)
    (h2 : 2 ≤ recent.matchCount) (hkd : overall.kd ≠ 0) :
    (((generateAlerts overall recent).filter
        (fun a => a.type == AlertType.playstyleChange)) ≠ []
        ↔ 1 / 10 ≤ |(recent.kd - overall.kd) / overall.kd|) ∧
    ∀ a ∈ (generateAlerts overall recent).filter
        (fun a => a.type == AlertType.playstyleChange),
      a.severity =
        if 1 / 4 ≤ |(recent.kd - overall.kd) / overall.kd| then AlertSeverity.high
        else if 3 / 20 ≤ |(recent.kd - overall.kd) / overall.kd| then AlertSeverity.medium
        else AlertSeverity.low := by
  have hne2 : ¬ recent.matchCount < 2 := by omega
  have hflt := filter_playstyle_eq overall recent hne2
  have habs : fabs (mul100 (fdivQ (recent.kd - overall.kd) overall.kd))
      = .finite (100 * |(recent.kd - overall.kd) / overall.kd|) := by
    simp [fdivQ, hkd, mul100, fabs, abs_mul]
  simp only [habs, determineSeverity, fge, decide_eq_true_eq] at hflt
  constructor
  · rw [hflt]
    by_cases h : (10:ℚ) ≤ 100 * |(recent.kd - overall.kd) / overall.kd|
    · simp only [if_pos h]
      constructor
      · intro _; linarith
      · intro _; simp
    · simp only [if_neg h]
      constructor
      · intro hc; exact absurd rfl hc
      · intro hc; exact absurd (by linarith) h
  · intro a ha
    rw [hflt] at ha
    split at ha
    · simp only [List.mem_singleton] at ha
      subst ha
      by_cases h25 : (1:ℚ)/4 ≤ |(recent.kd - overall.kd) / overall.kd|
      · rw [if_pos h25,
          if_pos (by linarith : (25:ℚ) ≤ 100 * |(recent.kd - overall.kd) / overall.kd|)]
      · rw [if_neg h25, if_neg (by intro hc; exact h25 (by linarith))]
        by_cases h15 : (3:ℚ)/20 ≤ |(recent.kd - overall.kd) / overall.kd|
        · rw [if_pos h15,
            if_pos (by linarith : (15:ℚ) ≤ 100 * |(recent.kd - overall.kd) / overall.kd|)]
        · rw [if_neg h15, if_neg (by intro hc; exact h15 (by linarith))]
    · simp at ha

/-- C3 (witness): a 30% K/D increase over a nonzero baseline with 3 recent
matches instantiates the amended threshold and severity rule. -/
theorem playstyle_alert_threshold_and_severity_witness :
    (((generateAlerts ⟨.last3Months, 1 / 2, 1, 10⟩ ⟨.lastWeek, 1 / 2, 13 / 10, 3⟩).filter
        (fun a => a.type == AlertType.playstyleChange)) ≠ []
        ↔ 1 / 10 ≤ |((13:ℚ) / 10 - 1) / 1|) ∧
    ∀ a ∈ (generateAlerts ⟨.last3Months, 1 / 2, 1, 10⟩ ⟨.lastWeek, 1 / 2, 13 / 10, 3⟩).filter
        (fun a => a.type == AlertType.playstyleChange),
      a.severity =
        if 1 / 4 ≤ |((13:ℚ) / 10 - 1) / 1| then AlertSeverity.high
        else if 3 / 20 ≤ |((13:ℚ) / 10 - 1) / 1| then AlertSeverity.medium
        else AlertSeverity.low :=
  playstyle_alert_threshold_and_severity ⟨.last3Months, 1 / 2, 1, 10⟩
    ⟨.lastWeek, 1 / 2, 13 / 10, 3⟩ (by norm_num) (by norm_num)

/-- The fixed win-rate advantage text heads every win-rate advantage
message. -/
theorem hwr_pref_msg (n : String) :
    isPref "Higher win rate".data ("Higher win rate (+" ++ n ++ "%)").data = true := by
  have h : "Higher win rate (+".data = "Higher win rate".data ++ " (+".data := by decide
  simp only [strData_append, h, List.append_assoc]
  exact isPref_append_self _ _

/-- C7: the win-rate rule of the advantage builder: strictly inside the
dead zone (minus 0.05, 0.05) neither team receives a win-rate advantage;
at a difference of at least 0.05 exactly the higher team receives one,
with the rounded percentage in its message. -/
theorem calculateAdvantages_winrate_rule (report : ComparisonReport) :
    ((-(1 / 20) < report.team1.stats.winRate - report.team2.stats.winRate
        ∧ report.team1.stats.winRate - report.team2.stats.winRate < 1 / 20) →
      hasWrAdv (calculateAdvantages report).team1 = false
        ∧ hasWrAdv (calculateAdvantages report).team2 = false) ∧
    (1 / 20 ≤ report.team1.stats.winRate - report.team2.stats.winRate →
      hasWrAdv (calculateAdvantages report).team1 = true
        ∧ hasWrAdv (calculateAdvantages report).team2 = false
        ∧ ("Higher win rate (+"
            ++ toString (round ((report.team1.stats.winRate - report.team2.stats.winRate) * 100))
            ++ "%)") ∈ (calculateAdvantages report).team1) ∧
    (report.team1.stats.winRate - report.team2.stats.winRate ≤ -(1 / 20) →
      hasWrAdv (calculateAdvantages report).team2 = true
        ∧ hasWrAdv (calculateAdvantages report).team1 = false
        ∧ ("Higher win rate (+"
            ++ toString (round (-(report.team1.stats.winRate - report.team2.stats.winRate) * 100))
            ++ "%)") ∈ (calculateAdvantages report).team2) := by
  refine ⟨?_, ?_, ?_⟩
  · rintro ⟨hlo, hhi⟩
    have h1 : ¬ (1 / 20 ≤ report.team1.stats.winRate - report.team2.stats.winRate) := by
      intro hc; linarith
    have h2 : ¬ (report.team1.stats.winRate - report.team2.stats.winRate ≤ -(1 / 20)) := by
      intro hc; linarith
    simp only [calculateAdvantages, if_neg h1, if_neg h2]
    constructor <;>
      · simp only [hasWrAdv, List.nil_append, List.any_append, Bool.or_eq_false_iff]
        constructor <;> split_ifs <;>
          simp only [List.any_nil, List.any_cons, Bool.or_false] <;> rfl
  · intro h1
    simp only [calculateAdvantages, if_pos h1]
    refine ⟨?_, ?_, ?_⟩
    · simp only [hasWrAdv, List.cons_append, List.any_cons, Bool.or_eq_true]
      exact Or.inl (hwr_pref_msg _)
    · simp only [hasWrAdv, List.nil_append, List.any_append, Bool.or_eq_false_iff]
      constructor <;> split_ifs <;>
        simp only [List.any_nil, List.any_cons, Bool.or_false] <;> rfl
    · simp only [List.mem_append, List.mem_singleton]
      exact Or.inl (Or.inl trivial)
  · intro h2
    have h1 : ¬ (1 / 20 ≤ report.team1.stats.winRate - report.team2.stats.winRate) := by
      intro hc
      have hp : (0:ℚ) < 1 / 20 := by norm_num
      linarith
    simp only [calculateAdvantages, if_neg h1, if_pos h2]
    refine ⟨?_, ?_, ?_⟩
    · simp only [hasWrAdv, List.cons_append, List.nil_append, List.any_cons,
        Bool.or_eq_true]
      exact Or.inl (hwr_pref_msg _)
    · simp only [hasWrAdv, List.nil_append, List.any_append, Bool.or_eq_false_iff]
      constructor <;> split_ifs <;>
        simp only [List.any_nil, List.any_cons, Bool.or_false] <;> rfl
    · simp only [List.mem_append, List.mem_singleton]
      exact Or.inl (Or.inl trivial)

/-- C7 (witness): the specification scenario, win rates 0.65 versus 0.55:
team A receives the advantage with message text `Higher win rate (+10%)`. -/
theorem calculateAdvantages_winrate_rule_witness :
    hasWrAdv (calculateAdvantages scenarioReport).team1 = true ∧
    "Higher win rate (+10%)" ∈ (calculateAdvantages scenarioReport).team1 := by
  have h := (calculateAdvantages_winrate_rule scenarioReport).2.1
    (by norm_num [scenarioReport])
  refine ⟨h.1, ?_⟩
  have h22 := h.2.2
  rw [show round ((scenarioReport.team1.stats.winRate
      - scenarioReport.team2.stats.winRate) * 100) = (10:ℤ) from by
    norm_num [scenarioReport, round_eq]] at h22
  rwa [show ("Higher win rate (+" ++ toString (10:ℤ) ++ "%)")
      = "Higher win rate (+10%)" from by decide] at h22

/-- C9 (amended): with both sample sizes positive, the sample-size
disparity warning is present exactly when the sample ratio exceeds 3 or
falls below the code's literal 0.33 boundary (not the exact rational one
third of the claim). -/
theorem generateWarnings_disparity_boundary (n1 n2 : String) (c1 c2 : Confidence)
    (h1 : 0 < c1.sampleSize) (h2 : 0 < c2.sampleSize) :
    disparityMsg ∈ generateWarnings n1 c1 n2 c2
      ↔ (3 < (c1.sampleSize : ℚ) / (c2.sampleSize : ℚ)
          ∨ (c1.sampleSize : ℚ) / (c2.sampleSize : ℚ) < 33 / 100) := by
  have hlow : ∀ (x : String) (k : ℕ),
      disparityMsg = x ++ " has low sample size (" ++ toString k
          ++ " matches) - predictions less reliable" → False := by
    intro x k he
    exact append_ne_of_not_suffix _ _ _ (by decide) he.symm
  have hins : ∀ x : String,
      disparityMsg = x
          ++ " has insufficient data (<3 matches) - comparison may not be meaningful"
        → False := by
    intro x he
    exact append_ne_of_not_suffix _ _ _ (by decide) he.symm
  have hmis : disparityMsg
      = "Teams have significantly different data quality - comparison may be skewed"
        → False := by decide
  unfold generateWarnings
  simp only [List.mem_append]
  constructor
  · intro hm
    rcases hm with ((((hm | hm) | hm) | hm) | hm) | hm
    · split at hm
      · exact absurd (by simpa using hm) (hlow n1 _)
      · simp at hm
    · split at hm
      · exact absurd (by simpa using hm) (hlow n2 _)
      · simp at hm
    · split at hm
      · exact absurd (by simpa using hm) (hins n1)
      · simp at hm
    · split at hm
      · exact absurd (by simpa using hm) (hins n2)
      · simp at hm
    · split at hm
      · exact absurd (by simpa using hm) hmis
      · simp at hm
    · rw [if_pos ⟨h1, h2⟩] at hm
      split at hm
      · rename_i hcond
        exact hcond
      · simp at hm
  · intro hcond
    refine Or.inr ?_
    rw [if_pos ⟨h1, h2⟩, if_pos hcond]
    exact List.mem_singleton_self _

/-- C9 (witness): samples 10 versus 2 (ratio 5, above 3): the disparity
warning is generated. -/
theorem generateWarnings_disparity_boundary_witness :
    disparityMsg ∈ generateWarnings "A" ⟨.high, 10, "", 90⟩ "B" ⟨.high, 2, "", 95⟩ := by
  refine (generateWarnings_disparity_boundary "A" "B" ⟨.high, 10, "", 90⟩
    ⟨.high, 2, "", 95⟩ (by norm_num) (by norm_num)).mpr ?_
  left
  norm_num

end Scouting
